import Mathlib

/-!
Verification development for the account_easy_server payroll/tax core.

Conventions of the shallow embedding:
* JavaScript numbers are modelled as exact rationals (`ℚ`); every arithmetic
  operation appearing in the source (`+`, `-`, `*`, `/`, `Math.min`,
  `Math.max`, `Math.round`) is translated to the corresponding exact
  operation on `ℚ`.
* Mongoose documents are modelled as Lean structures carrying the schema
  fields the claims depend on; a `save` is modelled with mongoose's real
  middleware ordering: document validation (the schema's `required` checks
  and `min: 0` bounds) runs first — before any user `pre('save')` hook —
  and only then does the pre-save hook recompute the derived fields, whose
  new values are persisted without further validation. The payroll schema
  itself documents this ordering: `payrollNumber` is deliberately not
  `required` because it is generated in the pre-save hook. A new document
  built by a creation route therefore still has its hook-assigned required
  paths undefined (modelled as `Option`) when validation inspects it; a
  failed validation is an `Except.error`.
* HTTP handlers are modelled as functions from the request payload (and the
  stored document, for update routes) to `Except` of an error or the stored
  result; authentication / tenant-access guards are outside the modelled
  core and are omitted.
-/

namespace AccountEasy

/-- JavaScript `a || b` on an optional numeric field: `undefined` and `0`
are falsy, so both fall back to the default. -/
def jsOrNum (v : Option ℚ) (d : ℚ) : ℚ :=
  match v with
  | none => d
  | some x => if x = 0 then d else x

/-- JavaScript `Math.max` on two numbers. -/
def jsMax (a b : ℚ) : ℚ := if a ≤ b then b else a

/-- JavaScript `Math.min` on two numbers. -/
def jsMin (a b : ℚ) : ℚ := if a ≤ b then a else b

/-- Floor of a rational, computed on its reduced representation (the
denominator is positive, so flooring the fraction is integer floor
division of numerator by denominator). -/
def ratFloor (x : ℚ) : ℤ := Int.fdiv x.num x.den

/-- JavaScript `Math.round`: half-up (towards positive infinity),
`Math.round(x) = floor(x + 1/2)`. -/
def jsRound (x : ℚ) : ℤ := ratFloor (x + 1 / 2)

/-- Left-pad a string with a character, JavaScript `String.padStart`. -/
def padStart (s : String) (n : Nat) (c : Char) : String :=
  String.mk (List.replicate (n - s.length) c) ++ s

/-! ## Payroll document (src/unnamed/part_000, `payrollSchema`) -/

/-- `earnings.overtime` subdocument. -/
structure Overtime where
  hours : ℚ
  rate : ℚ
  amount : ℚ
  deriving DecidableEq, Repr

/-- One entry of `earnings.allowances`. -/
structure Allowance where
  amount : ℚ
  taxable : Bool
  deriving DecidableEq, Repr

/-- `earnings` subdocument of the payroll schema. -/
structure Earnings where
  basicSalary : ℚ
  overtime : Overtime
  allowances : List Allowance
  bonus : ℚ
  commission : ℚ
  backPay : ℚ
  grossEarnings : ℚ
  deriving DecidableEq, Repr

/-- `deductions.paye` subdocument. -/
structure PayeDeduction where
  taxableIncome : ℚ
  rate : ℚ
  amount : ℚ
  deriving DecidableEq, Repr

/-- `deductions.nis` subdocument (schema default rate `0.03`). -/
structure NisDeduction where
  contribution : ℚ
  rate : ℚ
  deriving DecidableEq, Repr

/-- `deductions.educationTax` / `deductions.heartTrust` shape. -/
structure LevyDeduction where
  rate : ℚ
  amount : ℚ
  deriving DecidableEq, Repr

/-- `deductions.pension` subdocument. -/
structure PensionDeduction where
  employeeRate : ℚ
  employerRate : ℚ
  employeeContribution : ℚ
  employerContribution : ℚ
  deriving DecidableEq, Repr

/-- One entry of `deductions.otherDeductions`. -/
structure OtherDeduction where
  amount : ℚ
  recurring : Bool
  deriving DecidableEq, Repr

/-- `deductions` subdocument of the payroll schema. -/
structure Deductions where
  paye : PayeDeduction
  nis : NisDeduction
  educationTax : LevyDeduction
  heartTrust : LevyDeduction
  pension : PensionDeduction
  otherDeductions : List OtherDeduction
  totalDeductions : ℚ
  deriving DecidableEq, Repr

/-- `jamaicaTaxCalculation` subdocument (schema defaults:
threshold 1,000,000; personal allowance 1,500,000;
education-tax threshold 500,000). -/
structure JamaicaTaxConfig where
  payeThreshold : ℚ
  personalAllowance : ℚ
  educationTaxThreshold : ℚ
  deriving DecidableEq, Repr

/-- `status` enum of the payroll schema. -/
inductive PayrollStatus where
  | draft
  | calculated
  | approved
  | paid
  | cancelled
  deriving DecidableEq, Repr

/-- `workRecord` subdocument. -/
structure WorkRecord where
  regularHours : ℚ
  overtimeHours : ℚ
  holidayHours : ℚ
  sickHours : ℚ
  vacationHours : ℚ
  unpaidLeaveHours : ℚ
  deriving DecidableEq, Repr

/-- `paymentInfo.paymentMethod` enum. -/
inductive PaymentMethod where
  | bankTransfer
  | check
  | cash
  | mobilePayment
  deriving DecidableEq, Repr

/-- `paymentInfo` subdocument; dates are modelled as `ℤ` epoch values. -/
structure PaymentInfo where
  payDate : ℤ
  paymentMethod : PaymentMethod
  checkNumber : Option String
  isPaid : Bool
  paidDate : Option ℤ
  deriving DecidableEq, Repr

/-- The payroll document, restricted to the schema fields the verified
claims depend on. -/
structure Payroll where
  payrollNumber : String
  earnings : Earnings
  deductions : Deductions
  netPay : ℚ
  paymentInfo : PaymentInfo
  workRecord : WorkRecord
  jamaicaTaxCalculation : JamaicaTaxConfig
  status : PayrollStatus
  notes : String
  deriving DecidableEq, Repr

/-! ## Jamaica tax calculation (src/unnamed/part_000, `calculateJamaicaTaxes`) -/

/-- One bracket of the hard-coded 2024 table; `max = none` stands for the
JavaScript `Infinity` upper bound. -/
structure TaxBracket where
  min : ℚ
  max : Option ℚ
  rate : ℚ
  deriving DecidableEq, Repr

/-- The bracket table hard-coded both in `calculateJamaicaTaxes`
(src/unnamed/part_000 lines 354-358) and in `JAMAICA_TAX_RATES.PAYE.BRACKETS`
(src/routes/tax.js lines 50-54); the two literals are identical. -/
def jamaicaTaxBrackets2024 : List TaxBracket :=
  [ { min := 0, max := some 1500000, rate := 0 },
    { min := 1500001, max := some 6000000, rate := 25 / 100 },
    { min := 6000001, max := none, rate := 30 / 100 } ]

/-- `Math.min(taxableIncome, bracket.max)` where `bracket.max` may be
`Infinity`. -/
def capAtBracketMax (taxableIncome : ℚ) (m : Option ℚ) : ℚ :=
  match m with
  | none => taxableIncome
  | some upper => jsMin taxableIncome upper

/-- The bracket loop shared by both PAYE implementations: for each bracket,
if `taxableIncome > bracket.min`, accrue
`(Math.min(taxableIncome, bracket.max) - bracket.min) * bracket.rate`. -/
def payeFromBrackets (brackets : List TaxBracket) (taxableIncome : ℚ) : ℚ :=
  brackets.foldl
    (fun acc b =>
      if b.min < taxableIncome then
        acc + (capAtBracketMax taxableIncome b.max - b.min) * b.rate
      else acc)
    0

/-- `payrollSchema.methods.calculateJamaicaTaxes` (src/unnamed/part_000
lines 344-387): annualises the stored monthly gross by 12, derives PAYE,
NIS, education tax, HEART Trust and pension deductions, and writes them
back onto the document. No rounding is applied anywhere. -/
def calculateJamaicaTaxes (p : Payroll) : Payroll :=
  let annualGross := p.earnings.grossEarnings * 12
  let personalAllowance := p.jamaicaTaxCalculation.personalAllowance
  let taxableIncome := jsMax 0 (annualGross - personalAllowance)
  let payeAmount :=
    if 0 < taxableIncome then payeFromBrackets jamaicaTaxBrackets2024 taxableIncome
    else 0
  let nisableIncome := jsMin annualGross 1000000
  let nisContribution := nisableIncome * p.deductions.nis.rate / 12
  let educationTaxableIncome :=
    jsMax 0 (annualGross - p.jamaicaTaxCalculation.educationTaxThreshold)
  let educationTaxAmount := educationTaxableIncome * p.deductions.educationTax.rate / 12
  let heartTrustAmount := annualGross * p.deductions.heartTrust.rate / 12
  let pension :=
    if 0 < p.deductions.pension.employeeRate then
      { p.deductions.pension with
          employeeContribution := p.earnings.grossEarnings * p.deductions.pension.employeeRate
          employerContribution := p.earnings.grossEarnings * p.deductions.pension.employerRate }
    else p.deductions.pension
  { p with
      deductions :=
        { p.deductions with
            paye :=
              { p.deductions.paye with
                  taxableIncome := taxableIncome
                  amount := payeAmount / 12 }
            nis := { p.deductions.nis with contribution := nisContribution }
            educationTax := { p.deductions.educationTax with amount := educationTaxAmount }
            heartTrust := { p.deductions.heartTrust with amount := heartTrustAmount }
            pension := pension } }

/-- The payroll-number format of the pre-save hook:
`PAY-<year><2-digit month>-<5-digit ordinal>`. -/
def mkPayrollNumber (year month : Nat) (ordinal : Nat) : String :=
  "PAY-" ++ toString year ++ padStart (toString month) 2 (Char.ofNat 48)
    ++ "-" ++ padStart (toString ordinal) 5 (Char.ofNat 48)

/-- `payrollSchema.pre('save')` (src/unnamed/part_000 lines 296-341):
on a new document the payroll number is derived from
`countDocuments({business}) + 1`; then gross earnings, the Jamaica tax
deductions, total deductions and net pay are recomputed.
`count` is the number of existing payroll documents of the business and
`year`/`month` the wall-clock date. Note `netPay` is assigned the plain
difference `grossEarnings - totalDeductions`, with no floor at zero. -/
def preSavePayroll (isNew : Bool) (count : Nat) (year month : Nat) (p : Payroll) : Payroll :=
  let p :=
    if isNew then { p with payrollNumber := mkPayrollNumber year month (count + 1) }
    else p
  let grossBase := p.earnings.basicSalary + p.earnings.overtime.amount
      + p.earnings.bonus + p.earnings.commission + p.earnings.backPay
  let grossEarnings :=
    p.earnings.allowances.foldl
      (fun g a => if a.taxable then g + a.amount else g) grossBase
  let p := { p with earnings := { p.earnings with grossEarnings := grossEarnings } }
  let p := calculateJamaicaTaxes p
  let totalBase := p.deductions.paye.amount + p.deductions.nis.contribution
      + p.deductions.educationTax.amount + p.deductions.heartTrust.amount
      + p.deductions.pension.employeeContribution
  let totalDeductions :=
    p.deductions.otherDeductions.foldl (fun t d => t + d.amount) totalBase
  let p := { p with deductions := { p.deductions with totalDeductions := totalDeductions } }
  { p with netPay := p.earnings.grossEarnings - totalDeductions }

/-- The numeric `min: 0` constraints declared by the payroll schema;
mongoose rejects a save whose document violates any of them. -/
def validatePayroll (p : Payroll) : Prop :=
  0 ≤ p.earnings.basicSalary ∧
  0 ≤ p.earnings.overtime.hours ∧
  0 ≤ p.earnings.overtime.rate ∧
  0 ≤ p.earnings.overtime.amount ∧
  (∀ a ∈ p.earnings.allowances, 0 ≤ a.amount) ∧
  0 ≤ p.earnings.bonus ∧
  0 ≤ p.earnings.commission ∧
  0 ≤ p.earnings.backPay ∧
  0 ≤ p.earnings.grossEarnings ∧
  0 ≤ p.deductions.paye.amount ∧
  0 ≤ p.deductions.nis.contribution ∧
  0 ≤ p.deductions.educationTax.amount ∧
  0 ≤ p.deductions.heartTrust.amount ∧
  0 ≤ p.deductions.pension.employeeContribution ∧
  0 ≤ p.deductions.pension.employerContribution ∧
  (∀ d ∈ p.deductions.otherDeductions, 0 ≤ d.amount) ∧
  0 ≤ p.deductions.totalDeductions ∧
  0 ≤ p.netPay ∧
  0 ≤ p.workRecord.regularHours ∧
  0 ≤ p.workRecord.overtimeHours ∧
  0 ≤ p.workRecord.holidayHours ∧
  0 ≤ p.workRecord.sickHours ∧
  0 ≤ p.workRecord.vacationHours ∧
  0 ≤ p.workRecord.unpaidLeaveHours

instance (p : Payroll) : Decidable (validatePayroll p) := by
  unfold validatePayroll; infer_instance

/-- Errors surfaced by the modelled payroll operations. -/
inductive PayrollError where
  | immutable
  | validationFailed
  deriving DecidableEq, Repr

/-- A mongoose `document.save()` on a fully-hydrated payroll document
(every schema path defined, as after loading the record from the store):
mongoose registers validation before any user `pre('save')` hook, so the
schema's declared bounds are checked on the document as it stands, and
only afterwards does the pre-save hook recompute the derived fields —
whose new values are written without further validation. -/
def savePayroll (isNew : Bool) (count : Nat) (year month : Nat) (p : Payroll) :
    Except PayrollError Payroll :=
  if validatePayroll p then Except.ok (preSavePayroll isNew count year month p)
  else Except.error .validationFailed

/-- A new payroll document as `POST /api/payroll` constructs it
(src/unnamed/part_005 lines 83-108): the request's earnings fields plus
schema defaults. The schema-required derived paths
`earnings.grossEarnings`, `deductions.totalDeductions` and `netPay` have
no default and are not set by the route — they stay undefined (`none`)
until the pre-save hook would assign them. -/
structure NewPayroll where
  basicSalary : ℚ
  overtime : Overtime
  allowances : List Allowance
  bonus : ℚ
  commission : ℚ
  backPay : ℚ
  grossEarnings : Option ℚ
  totalDeductions : Option ℚ
  netPay : Option ℚ
  deriving DecidableEq, Repr

/-- The document `new Payroll({...})` the creation route builds: the
derived paths are left unset. -/
def buildNewPayroll (basicSalary : ℚ) (overtime : Overtime)
    (allowances : List Allowance) (bonus commission backPay : ℚ) : NewPayroll :=
  { basicSalary := basicSalary, overtime := overtime, allowances := allowances,
    bonus := bonus, commission := commission, backPay := backPay,
    grossEarnings := none, totalDeductions := none, netPay := none }

/-- The hydrated document a new payroll would become if its three derived
paths were defined with the given values; every other path carries its
schema default. -/
def hydrateNewPayroll (d : NewPayroll) (g t n : ℚ) : Payroll :=
  { payrollNumber := ""
    earnings :=
      { basicSalary := d.basicSalary, overtime := d.overtime,
        allowances := d.allowances, bonus := d.bonus, commission := d.commission,
        backPay := d.backPay, grossEarnings := g }
    deductions :=
      { paye := { taxableIncome := 0, rate := 0, amount := 0 }
        nis := { contribution := 0, rate := 3 / 100 }
        educationTax := { rate := 25 / 1000, amount := 0 }
        heartTrust := { rate := 3 / 100, amount := 0 }
        pension := { employeeRate := 5 / 100, employerRate := 5 / 100,
                     employeeContribution := 0, employerContribution := 0 }
        otherDeductions := []
        totalDeductions := t }
    netPay := n
    paymentInfo :=
      { payDate := 0, paymentMethod := .bankTransfer, checkNumber := none,
        isPaid := false, paidDate := none }
    workRecord :=
      { regularHours := 0, overtimeHours := 0, holidayHours := 0,
        sickHours := 0, vacationHours := 0, unpaidLeaveHours := 0 }
    jamaicaTaxCalculation :=
      { payeThreshold := 1000000, personalAllowance := 1500000,
        educationTaxThreshold := 500000 }
    status := .draft
    notes := "" }

/-- Saving a new payroll document: validation — including the schema's
`required` checks — runs before the user pre-save hook, so it inspects
the document exactly as the route built it. Only a document whose
required derived paths are all defined would go on to the numbering and
recompute hook; the match on the three paths is that required check. -/
def saveNewPayroll (count year month : Nat) (d : NewPayroll) :
    Except PayrollError Payroll :=
  match d.grossEarnings, d.totalDeductions, d.netPay with
  | some g, some t, some n => savePayroll true count year month (hydrateNewPayroll d g t n)
  | _, _, _ => Except.error PayrollError.validationFailed

/-! ## PUT /api/payroll/:payrollId (src/unnamed/part_005 lines 292-387)

The handler loads the record, rejects any edit of a `paid` record with a
400 response, shallow-merges the `earnings` / `workRecord` / `paymentInfo`
request objects over the stored subdocuments, replaces `notes`, sets the
requested `status` only when it is one of `draft` / `calculated` /
`approved` (any other requested status is dropped silently), and saves.
The request payload is modelled with one `Option` per JSON key: `none`
means the key is absent from the request body. -/

/-- Request body `earnings` object of the update route. -/
structure EarningsPatch where
  basicSalary : Option ℚ
  overtime : Option Overtime
  allowances : Option (List Allowance)
  bonus : Option ℚ
  commission : Option ℚ
  backPay : Option ℚ
  grossEarnings : Option ℚ
  deriving DecidableEq, Repr

/-- Request body `workRecord` object of the update route. -/
structure WorkRecordPatch where
  regularHours : Option ℚ
  overtimeHours : Option ℚ
  holidayHours : Option ℚ
  sickHours : Option ℚ
  vacationHours : Option ℚ
  unpaidLeaveHours : Option ℚ
  deriving DecidableEq, Repr

/-- Request body `paymentInfo` object of the update route. -/
structure PaymentInfoPatch where
  payDate : Option ℤ
  paymentMethod : Option PaymentMethod
  checkNumber : Option String
  isPaid : Option Bool
  deriving DecidableEq, Repr

/-- Request body of `PUT /api/payroll/:payrollId`. -/
structure PayrollUpdateRequest where
  earnings : Option EarningsPatch
  workRecord : Option WorkRecordPatch
  paymentInfo : Option PaymentInfoPatch
  notes : Option String
  status : Option PayrollStatus
  deriving DecidableEq, Repr

/-- `payroll.earnings = { ...payroll.earnings, ...earnings }`. -/
def mergeEarnings (e : Earnings) (patch : EarningsPatch) : Earnings :=
  { basicSalary := patch.basicSalary.getD e.basicSalary
    overtime := patch.overtime.getD e.overtime
    allowances := patch.allowances.getD e.allowances
    bonus := patch.bonus.getD e.bonus
    commission := patch.commission.getD e.commission
    backPay := patch.backPay.getD e.backPay
    grossEarnings := patch.grossEarnings.getD e.grossEarnings }

/-- `payroll.workRecord = { ...payroll.workRecord, ...workRecord }`. -/
def mergeWorkRecord (w : WorkRecord) (patch : WorkRecordPatch) : WorkRecord :=
  { regularHours := patch.regularHours.getD w.regularHours
    overtimeHours := patch.overtimeHours.getD w.overtimeHours
    holidayHours := patch.holidayHours.getD w.holidayHours
    sickHours := patch.sickHours.getD w.sickHours
    vacationHours := patch.vacationHours.getD w.vacationHours
    unpaidLeaveHours := patch.unpaidLeaveHours.getD w.unpaidLeaveHours }

/-- `payroll.paymentInfo = { ...payroll.paymentInfo, ...paymentInfo }`. -/
def mergePaymentInfo (pi : PaymentInfo) (patch : PaymentInfoPatch) : PaymentInfo :=
  { payDate := patch.payDate.getD pi.payDate
    paymentMethod := patch.paymentMethod.getD pi.paymentMethod
    checkNumber := match patch.checkNumber with
      | some c => some c
      | none => pi.checkNumber
    isPaid := patch.isPaid.getD pi.isPaid
    paidDate := pi.paidDate }

/-- The status filter of the update route:
`if (status && ['draft', 'calculated', 'approved'].includes(status))
payroll.status = status`. -/
def statusFilter (current : PayrollStatus) (requested : Option PayrollStatus) :
    PayrollStatus :=
  match requested with
  | some s =>
      if s = .draft ∨ s = .calculated ∨ s = .approved then s else current
  | none => current

/-- The field-merge phase of the update handler: shallow-merge the
request objects over the stored subdocuments, replace `notes`, and apply
the status allow-list filter. -/
def mergePayrollUpdate (p : Payroll) (r : PayrollUpdateRequest) : Payroll :=
  let p1 := match r.earnings with
    | some e => { p with earnings := mergeEarnings p.earnings e }
    | none => p
  let p2 := match r.workRecord with
    | some w => { p1 with workRecord := mergeWorkRecord p1.workRecord w }
    | none => p1
  let p3 := match r.paymentInfo with
    | some pi => { p2 with paymentInfo := mergePaymentInfo p2.paymentInfo pi }
    | none => p2
  let p4 := match r.notes with
    | some n => { p3 with notes := n }
    | none => p3
  { p4 with status := statusFilter p4.status r.status }

/-- The update handler after access control: the `paid` guard, the field
merges and status filter, then `payroll.save()` — which validates the
merged document (before the pre-save hook, so the hook's recomputed
values are never validated) and then recomputes the derived fields; the
document is not new, so the payroll number is kept. -/
def updatePayroll (p : Payroll) (r : PayrollUpdateRequest) :
    Except PayrollError Payroll :=
  if p.status = .paid then Except.error .immutable
  else savePayroll false 0 0 0 (mergePayrollUpdate p r)

/-- The store after one `PUT /api/payroll/:payrollId`: on success the
updated document replaces the old one, on any error response the stored
document is untouched. -/
def applyUpdateToStore (p : Payroll) (r : PayrollUpdateRequest) : Payroll :=
  match updatePayroll p r with
  | Except.ok q => q
  | Except.error _ => p

/-! ## Transaction document (src/models/Transaction.js) and
POST /api/transactions (src/unnamed/part_004 lines 237-318) -/

/-- Request body `taxInfo` object of the transaction-create route. -/
structure TaxInfoInput where
  isTaxable : Option Bool
  gctRate : Option ℚ
  gctAmount : Option ℚ
  deriving DecidableEq, Repr

/-- Request body of `POST /api/transactions`, restricted to the fields
the claims depend on. -/
structure TransactionInput where
  amount : ℚ
  taxInfo : Option TaxInfoInput
  deriving DecidableEq, Repr

/-- `taxInfo` subdocument of the transaction schema. -/
structure TaxInfo where
  isTaxable : Bool
  gctRate : ℚ
  gctAmount : ℚ
  deriving DecidableEq, Repr

/-- The transaction document, restricted to the fields the claims depend
on. `transactionNumber` is `required` by the schema but assigned only in
the pre-save hook, so on a newly built document the path is still
undefined (`none`) when validation runs. -/
structure Transaction where
  transactionNumber : Option String
  amount : ℚ
  taxInfo : TaxInfo
  deriving DecidableEq, Repr

/-- Errors surfaced by the modelled transaction creation. -/
inductive TransactionError where
  | invalidInput
  | validationFailed
  deriving DecidableEq, Repr

/-- The optional-field rule `body('taxInfo.gctRate').optional().isFloat`
with bounds 0 and 1: an absent rate passes, a present one must lie in
the closed interval. -/
def rateRuleOk : Option ℚ → Prop
  | some r => 0 ≤ r ∧ r ≤ 1
  | none => True

instance : (o : Option ℚ) → Decidable (rateRuleOk o)
  | some _ => by unfold rateRuleOk; infer_instance
  | none => by unfold rateRuleOk; infer_instance

/-- `transactionRules()` of src/middleware/validation.js applied to the
modelled fields: `amount` must satisfy `isFloat` with lower bound 0 and an
optional `taxInfo.gctRate` must satisfy `isFloat` with bounds 0 and 1. -/
def transactionRulesPass (i : TransactionInput) : Prop :=
  0 ≤ i.amount ∧ rateRuleOk (i.taxInfo >>= TaxInfoInput.gctRate)

instance (i : TransactionInput) : Decidable (transactionRulesPass i) := by
  unfold transactionRulesPass; infer_instance

/-- `taxInfo?.isTaxable !== false`: any value other than an explicit
`false` (including an absent key) counts as taxable. -/
def txIsTaxable (i : TransactionInput) : Bool :=
  match i.taxInfo >>= TaxInfoInput.isTaxable with
  | some false => false
  | _ => true

/-- The transaction-number format of the pre-save hook:
`TXN-<year>-<6-digit ordinal>`. -/
def mkTransactionNumber (year : Nat) (ordinal : Nat) : String :=
  "TXN-" ++ toString year ++ "-" ++ padStart (toString ordinal) 6 (Char.ofNat 48)

/-- `transactionSchema.pre('save')` (src/models/Transaction.js lines
197-211): a new document gets `TXN-<year>-<countDocuments + 1>`; then, if
the transaction is taxable with a positive GCT rate, the stored
`taxInfo.gctAmount` is overwritten with `amount * gctRate`; otherwise the
previously stored amount is left as it is. -/
def preSaveTransaction (isNew : Bool) (count : Nat) (year : Nat) (t : Transaction) :
    Transaction :=
  let t :=
    if isNew then
      { t with transactionNumber := some (mkTransactionNumber year (count + 1)) }
    else t
  if t.taxInfo.isTaxable ∧ 0 < t.taxInfo.gctRate then
    { t with taxInfo := { t.taxInfo with gctAmount := t.amount * t.taxInfo.gctRate } }
  else t

/-- The transaction schema's declared constraints on the modelled fields:
`transactionNumber` is `required` (it must be defined — yet only the
pre-save hook assigns it) and `amount` carries a `min: 0` bound. -/
def validateTransaction (t : Transaction) : Prop :=
  t.transactionNumber.isSome = true ∧ 0 ≤ t.amount

instance (t : Transaction) : Decidable (validateTransaction t) := by
  unfold validateTransaction; infer_instance

/-- `POST /api/transactions`: express-validator middleware first, then the
document is built (`transactionNumber` unset — only the pre-save hook
assigns it; `isTaxable: taxInfo?.isTaxable !== false`;
`gctRate: taxInfo?.gctRate || 0.15`; `gctAmount: taxInfo?.gctAmount || 0`)
and saved. Mongoose validation runs before the pre-save hook, so it
inspects the document as built — and always finds the required
`transactionNumber` undefined; only a document passing validation would
reach the numbering and GCT-computation hook. -/
def createTransaction (count year : Nat) (i : TransactionInput) :
    Except TransactionError Transaction :=
  if transactionRulesPass i then
    let t0 : Transaction :=
      { transactionNumber := none
        amount := i.amount
        taxInfo :=
          { isTaxable := txIsTaxable i
            gctRate := jsOrNum (i.taxInfo >>= TaxInfoInput.gctRate) (15 / 100)
            gctAmount := jsOrNum (i.taxInfo >>= TaxInfoInput.gctAmount) 0 } }
    if validateTransaction t0 then Except.ok (preSaveTransaction true count year t0)
    else Except.error .validationFailed
  else Except.error .invalidInput

/-- The `totalAmount` virtual:
`this.amount + (this.taxInfo.gctAmount || 0)` (the field is always
present in the model, so the `|| 0` fallback is the identity). -/
def totalAmount (t : Transaction) : ℚ := t.amount + t.taxInfo.gctAmount

/-! ## POST /api/tax/calculate-paye (src/routes/tax.js lines 95-163) -/

/-- Response `calculation` object of the standalone PAYE route. The route
keeps the exact accumulated bracket tax in a local variable and rounds it
with `Math.round` (whole currency units) for the `payeAmount` and
`monthlyPaye` response fields; `payeExact` is that local variable. -/
structure PayeRouteResult where
  adjustedAllowance : ℚ
  taxableIncome : ℚ
  payeExact : ℚ
  payeAmount : ℤ
  monthlyPaye : ℤ
  deriving DecidableEq, Repr

/-- The handler: `!annualIncome || annualIncome < 0` rejects a missing,
zero or negative income with a 400; the allowance falls back to the
constant 1,500,000 (JavaScript `||`, so an explicit 0 also falls back),
is increased by 100,000 per dependent, and the shared bracket loop is
applied to `max(0, annualIncome - adjustedAllowance)`. -/
def calculatePayeRoute (annualIncome : ℚ) (personalAllowance : Option ℚ)
    (dependents : ℚ) : Except Unit PayeRouteResult :=
  if annualIncome = 0 ∨ annualIncome < 0 then Except.error ()
  else
    let allowance := jsOrNum personalAllowance 1500000
    let adjustedAllowance := allowance + dependents * 100000
    let taxableIncome := jsMax 0 (annualIncome - adjustedAllowance)
    let payeAmount := payeFromBrackets jamaicaTaxBrackets2024 taxableIncome
    Except.ok
      { adjustedAllowance := adjustedAllowance
        taxableIncome := taxableIncome
        payeExact := payeAmount
        payeAmount := jsRound payeAmount
        monthlyPaye := jsRound (payeAmount / 12) }

/-- A rational is representable with exactly two decimal places. -/
def hasTwoDecimalPlaces (x : ℚ) : Prop := (x * 100).den = 1

instance (x : ℚ) : Decidable (hasTwoDecimalPlaces x) := by
  unfold hasTwoDecimalPlaces; infer_instance

/-! ## GET /api/tax/business/:businessId/monthly-returns/:year/:month
(src/routes/tax.js lines 316-452) -/

/-- The per-record figures the monthly-return aggregation reads from each
approved/paid payroll document of the reported month. -/
structure MonthlyPayrollRow where
  grossEarnings : ℚ
  paye : ℚ
  nis : ℚ
  educationTax : ℚ
  heartTrust : ℚ
  employeePension : ℚ
  employerPension : ℚ
  deriving DecidableEq, Repr

/-- Accumulator of the `monthlyPayroll.reduce` call. -/
structure MonthlyTotals where
  totalGrossEarnings : ℚ
  totalPAYE : ℚ
  totalNIS : ℚ
  totalEducationTax : ℚ
  totalHeartTrust : ℚ
  totalEmployeePension : ℚ
  totalEmployerPension : ℚ
  employeeCount : Nat
  deriving DecidableEq, Repr

/-- The all-zero initial accumulator of the reduce. -/
def zeroTotals : MonthlyTotals :=
  { totalGrossEarnings := 0, totalPAYE := 0, totalNIS := 0, totalEducationTax := 0
    totalHeartTrust := 0, totalEmployeePension := 0, totalEmployerPension := 0
    employeeCount := 0 }

/-- One step of the reduce: add every figure of one payroll record and
increment the employee count. -/
def addRow (acc : MonthlyTotals) (r : MonthlyPayrollRow) : MonthlyTotals :=
  { totalGrossEarnings := acc.totalGrossEarnings + r.grossEarnings
    totalPAYE := acc.totalPAYE + r.paye
    totalNIS := acc.totalNIS + r.nis
    totalEducationTax := acc.totalEducationTax + r.educationTax
    totalHeartTrust := acc.totalHeartTrust + r.heartTrust
    totalEmployeePension := acc.totalEmployeePension + r.employeePension
    totalEmployerPension := acc.totalEmployerPension + r.employerPension
    employeeCount := acc.employeeCount + 1 }

/-- `monthlyPayroll.reduce(..., zero)` (src/routes/tax.js lines 351-370). -/
def monthlyTotals (rows : List MonthlyPayrollRow) : MonthlyTotals :=
  rows.foldl addRow zeroTotals

/-- A JavaScript `new Date(year, monthIndex, day)` with a possibly
out-of-range month index: the index is normalised into 0..11 and the
overflow is carried into the year. The reported month is 1-based, so
passing it as the (0-based) index denotes the following month. -/
structure JsDate where
  year : ℤ
  monthIndex : Nat
  day : Nat
  deriving DecidableEq, Repr

/-- `new Date(y, m, d)` for a non-negative month argument. -/
def jsMkDate (y : ℤ) (m : Nat) (d : Nat) : JsDate :=
  { year := y + m / 12, monthIndex := m % 12, day := d }

/-- Filing status tag of one levy in the monthly return. -/
inductive ReturnStatus where
  | required
  | nilReturn
  deriving DecidableEq, Repr

/-- The `returns.paye` object (form IT03). -/
structure PayeReturn where
  dueDate : JsDate
  totalPAYE : ℚ
  employeeCount : Nat
  status : ReturnStatus
  deriving DecidableEq, Repr

/-- The `returns.nis` object. -/
structure NisReturn where
  dueDate : JsDate
  employeeContributions : ℚ
  employerContributions : ℚ
  totalContributions : ℚ
  employeeCount : Nat
  status : ReturnStatus
  deriving DecidableEq, Repr

/-- The `returns.educationTax` object. -/
structure EducationTaxReturn where
  dueDate : JsDate
  totalTax : ℚ
  employeeCount : Nat
  status : ReturnStatus
  deriving DecidableEq, Repr

/-- The `returns.heartTrust` object. -/
structure HeartTrustReturn where
  dueDate : JsDate
  employeeContributions : ℚ
  employerContributions : ℚ
  totalContributions : ℚ
  employeeCount : Nat
  status : ReturnStatus
  deriving DecidableEq, Repr

/-- The `returns` object of the response. -/
structure MonthlyReturns where
  paye : PayeReturn
  nis : NisReturn
  educationTax : EducationTaxReturn
  heartTrust : HeartTrustReturn
  deriving DecidableEq, Repr

/-- The return-forms section of the monthly-returns handler
(src/routes/tax.js lines 372-410): employer NIS and HEART contributions
mirror the employee totals, each levy is tagged `required` exactly when
its total is strictly positive, and the due dates are
`new Date(taxYear, taxMonth, 14)` (NIS: day 15) — with the 1-based
`taxMonth` used as a 0-based month index, i.e. the month after the
reported one. -/
def monthlyReturns (taxYear : ℤ) (taxMonth : Nat)
    (rows : List MonthlyPayrollRow) : MonthlyReturns :=
  let t := monthlyTotals rows
  let employerNIS := t.totalNIS
  let employerHeartTrust := t.totalHeartTrust
  { paye :=
      { dueDate := jsMkDate taxYear taxMonth 14
        totalPAYE := t.totalPAYE
        employeeCount := t.employeeCount
        status := if 0 < t.totalPAYE then .required else .nilReturn }
    nis :=
      { dueDate := jsMkDate taxYear taxMonth 15
        employeeContributions := t.totalNIS
        employerContributions := employerNIS
        totalContributions := t.totalNIS + employerNIS
        employeeCount := t.employeeCount
        status := if 0 < t.totalNIS then .required else .nilReturn }
    educationTax :=
      { dueDate := jsMkDate taxYear taxMonth 14
        totalTax := t.totalEducationTax
        employeeCount := t.employeeCount
        status := if 0 < t.totalEducationTax then .required else .nilReturn }
    heartTrust :=
      { dueDate := jsMkDate taxYear taxMonth 14
        employeeContributions := t.totalHeartTrust
        employerContributions := employerHeartTrust
        totalContributions := t.totalHeartTrust + employerHeartTrust
        employeeCount := t.employeeCount
        status := if 0 < t.totalHeartTrust then .required else .nilReturn } }

/-- The calendar month following a 1-based (year, month) period. -/
def monthFollowing (y : ℤ) (m : Nat) : ℤ × Nat :=
  if m = 12 then (y + 1, 1) else (y, m + 1)

/-- 1-based (year, month, day) view of a `JsDate`. -/
def jsDateYmd (d : JsDate) : ℤ × Nat × Nat := (d.year, d.monthIndex + 1, d.day)

/-! ## Sample documents

Concrete hydrated payroll documents used by the witnesses and
counterexamples. All of them instantiate the schema defaults
(`nis.rate 0.03`, `educationTax.rate 0.025`, `heartTrust.rate 0.03`,
pension rates `0.05`, personal allowance 1,500,000, education-tax
threshold 500,000), exactly as a stored payroll document carries them:
no route ever sets the `deductions` or `jamaicaTaxCalculation` fields. -/

/-- Schema defaults of `jamaicaTaxCalculation`. -/
def defaultTaxConfig : JamaicaTaxConfig :=
  { payeThreshold := 1000000, personalAllowance := 1500000
    educationTaxThreshold := 500000 }

/-- Schema defaults of `earnings.overtime`. -/
def zeroOvertime : Overtime := { hours := 0, rate := 0, amount := 0 }

/-- Schema defaults of `workRecord`. -/
def zeroWorkRecord : WorkRecord :=
  { regularHours := 0, overtimeHours := 0, holidayHours := 0, sickHours := 0,
    vacationHours := 0, unpaidLeaveHours := 0 }

/-- A minimal `paymentInfo` with the schema defaults. -/
def defaultPaymentInfo : PaymentInfo :=
  { payDate := 0, paymentMethod := .bankTransfer, checkNumber := none,
    isPaid := false, paidDate := none }

/-- A fresh payroll document as `POST /api/payroll` builds it: the given
basic salary, no overtime / allowances / bonus / commission / back pay,
the given `otherDeductions` entries, schema defaults everywhere else.
The derived fields are zero until the pre-save hook fills them in. -/
def mkPayrollDoc (basicSalary : ℚ) (others : List OtherDeduction) : Payroll :=
  { payrollNumber := ""
    earnings :=
      { basicSalary := basicSalary, overtime := zeroOvertime, allowances := [],
        bonus := 0, commission := 0, backPay := 0, grossEarnings := 0 }
    deductions :=
      { paye := { taxableIncome := 0, rate := 0, amount := 0 }
        nis := { contribution := 0, rate := 3 / 100 }
        educationTax := { rate := 25 / 1000, amount := 0 }
        heartTrust := { rate := 3 / 100, amount := 0 }
        pension := { employeeRate := 5 / 100, employerRate := 5 / 100,
                     employeeContribution := 0, employerContribution := 0 }
        otherDeductions := others
        totalDeductions := 0 }
    netPay := 0
    paymentInfo := defaultPaymentInfo
    workRecord := zeroWorkRecord
    jamaicaTaxCalculation := defaultTaxConfig
    status := .draft
    notes := "" }

/-- The status of the document an update returned, if it succeeded. -/
def payrollStatusOf (r : Except PayrollError Payroll) : Option PayrollStatus :=
  match r with
  | Except.ok q => some q.status
  | Except.error _ => none

/-- A monthly payroll with gross earnings 200,000 after its first save:
the scenario document of the specification. -/
def payrollSaved200k : Payroll := preSavePayroll true 0 2025 3 (mkPayrollDoc 200000 [])

/-! ## Supporting lemmas -/

/-- The pre-save hook always writes `netPay` as the plain difference of the
recomputed gross earnings and total deductions. -/
theorem preSavePayroll_netPay_eq (isNew : Bool) (count year month : Nat) (p : Payroll) :
    (preSavePayroll isNew count year month p).netPay =
      (preSavePayroll isNew count year month p).earnings.grossEarnings -
        (preSavePayroll isNew count year month p).deductions.totalDeductions := by
  cases isNew <;> rfl

/-- The pre-save hook never changes the document status. -/
theorem preSavePayroll_status (isNew : Bool) (count year month : Nat) (p : Payroll) :
    (preSavePayroll isNew count year month p).status = p.status := by
  cases isNew <;> rfl

/-! ## C1 — the 200,000/month PAYE scenario -/

/-- C1, counterexample. The claim asserts that a monthly gross of 200,000
under the default rules yields annual taxable income 900,000 together with
a monthly PAYE amount of 18,750. On the saved scenario document the code
computes taxable income 900,000 but a monthly PAYE of 0: the personal
allowance has already been subtracted before the bracket table is applied,
and the whole 900,000 falls inside the 0%-rated first bracket, so the
claimed conjunction is false. -/
theorem paye_scenario_200k_claim_false :
    ¬ (payrollSaved200k.deductions.paye.taxableIncome = 900000 ∧
       payrollSaved200k.deductions.paye.amount = 18750) := by
  norm_num [payrollSaved200k, preSavePayroll, calculateJamaicaTaxes, mkPayrollDoc,
    jsMax, jsMin, payeFromBrackets, jamaicaTaxBrackets2024, capAtBracketMax,
    defaultTaxConfig, zeroOvertime, zeroWorkRecord, defaultPaymentInfo]

/-- C1, amended. For a monthly gross of 200,000 the deduction calculation
produces annual taxable income 900,000 and a monthly PAYE amount of 0
(not 18,750): the bracket table is applied to income already reduced by
the personal allowance, and 900,000 lies entirely in the 0% bracket. -/
theorem paye_scenario_200k_taxable_900k_tax_zero :
    payrollSaved200k.deductions.paye.taxableIncome = 900000 ∧
    payrollSaved200k.deductions.paye.amount = 0 := by
  norm_num [payrollSaved200k, preSavePayroll, calculateJamaicaTaxes, mkPayrollDoc,
    jsMax, jsMin, payeFromBrackets, jamaicaTaxBrackets2024, capAtBracketMax,
    defaultTaxConfig, zeroOvertime, zeroWorkRecord, defaultPaymentInfo]

/-! ## C2 — the net-pay floor -/

/-- A stored document whose `otherDeductions` (15,000) exceed its gross
earnings (10,000); its own field values all satisfy the schema bounds. -/
def payrollOverdeducted : Payroll :=
  mkPayrollDoc 10000 [{ amount := 15000, recurring := false }]

/-- The document after re-saving `payrollOverdeducted` (the update path:
not a new document). -/
def payrollOverdeductedSaved : Payroll :=
  preSavePayroll false 0 0 0 payrollOverdeducted

/-- C2, counterexample. The claim asserts the stored net pay always equals
max(0, grossEarnings - totalDeductions) — in particular 0, never negative,
when deductions exceed gross. Saving this record succeeds (validation runs
before the pre-save hook and only sees the document's current, valid
values) and the hook then stores netPay = 10,000 - 16,100 = -6,100: the
recomputed value is never validated, so a negative net pay is persisted —
not 0, and not max(0, gross - total). -/
theorem save_overdeducted_stores_negative :
    savePayroll false 0 0 0 payrollOverdeducted =
      Except.ok payrollOverdeductedSaved ∧
    payrollOverdeductedSaved.netPay = -6100 ∧
    payrollOverdeductedSaved.netPay < 0 ∧
    payrollOverdeductedSaved.netPay ≠
      jsMax 0 (payrollOverdeductedSaved.earnings.grossEarnings -
        payrollOverdeductedSaved.deductions.totalDeductions) := by
  have hval : validatePayroll payrollOverdeducted := by
    norm_num [payrollOverdeducted, validatePayroll, mkPayrollDoc, defaultTaxConfig,
      zeroOvertime, zeroWorkRecord, defaultPaymentInfo]
  refine ⟨?_, ?_, ?_, ?_⟩
  · simp only [savePayroll]
    rw [if_pos hval]
    rfl
  · norm_num [payrollOverdeductedSaved, payrollOverdeducted, preSavePayroll,
      calculateJamaicaTaxes, mkPayrollDoc, jsMax, jsMin, payeFromBrackets,
      jamaicaTaxBrackets2024, capAtBracketMax, defaultTaxConfig, zeroOvertime,
      zeroWorkRecord, defaultPaymentInfo]
  · norm_num [payrollOverdeductedSaved, payrollOverdeducted, preSavePayroll,
      calculateJamaicaTaxes, mkPayrollDoc, jsMax, jsMin, payeFromBrackets,
      jamaicaTaxBrackets2024, capAtBracketMax, defaultTaxConfig, zeroOvertime,
      zeroWorkRecord, defaultPaymentInfo]
  · norm_num [payrollOverdeductedSaved, payrollOverdeducted, preSavePayroll,
      calculateJamaicaTaxes, mkPayrollDoc, jsMax, jsMin, payeFromBrackets,
      jamaicaTaxBrackets2024, capAtBracketMax, defaultTaxConfig, zeroOvertime,
      zeroWorkRecord, defaultPaymentInfo]

/-- C2, amended. Every save that succeeds stores exactly the unfloored
difference netPay = grossEarnings - totalDeductions: there is no clamping,
and because mongoose validates before the pre-save hook the recomputed
value is never checked against the schema's min-0 bound — when deductions
exceed gross the save still succeeds but persists the negative difference
(see the counterexample), not 0. (A freshly created document never reaches
the hook at all: its required derived paths are undefined at validation
time.) -/
theorem savePayroll_netPay_no_floor (isNew : Bool) (count year month : Nat)
    (p q : Payroll) (h : savePayroll isNew count year month p = Except.ok q) :
    q.netPay = q.earnings.grossEarnings - q.deductions.totalDeductions := by
  simp only [savePayroll] at h
  split at h
  case isTrue =>
    cases h
    exact preSavePayroll_netPay_eq isNew count year month p
  case isFalse => cases h

/-- A stored document with deductions below its gross: 10,000 gross
against 6,100 of recomputed deductions. -/
def payrollModestDeductions : Payroll :=
  mkPayrollDoc 10000 [{ amount := 5000, recurring := false }]

/-- The document after the first save of `payrollModestDeductions`. -/
def payrollModestSaved : Payroll :=
  preSavePayroll true 0 2025 3 payrollModestDeductions

/-- C2, witness: a concrete successful save on which the amended theorem
applies. -/
theorem savePayroll_netPay_no_floor_witness :
    savePayroll false 0 0 0 payrollModestSaved =
      Except.ok (preSavePayroll false 0 0 0 payrollModestSaved) ∧
    (preSavePayroll false 0 0 0 payrollModestSaved).netPay =
      (preSavePayroll false 0 0 0 payrollModestSaved).earnings.grossEarnings -
        (preSavePayroll false 0 0 0 payrollModestSaved).deductions.totalDeductions := by
  have hval : validatePayroll payrollModestSaved := by
    norm_num [payrollModestSaved, payrollModestDeductions, validatePayroll,
      preSavePayroll, calculateJamaicaTaxes, mkPayrollDoc, jsMax, jsMin,
      payeFromBrackets, jamaicaTaxBrackets2024, capAtBracketMax, defaultTaxConfig,
      zeroOvertime, zeroWorkRecord, defaultPaymentInfo]
  have h : savePayroll false 0 0 0 payrollModestSaved =
      Except.ok (preSavePayroll false 0 0 0 payrollModestSaved) := by
    simp only [savePayroll]
    rw [if_pos hval]
  exact ⟨h, savePayroll_netPay_no_floor false 0 0 0 payrollModestSaved
    (preSavePayroll false 0 0 0 payrollModestSaved) h⟩

/-! ## C6 — the NIS cap -/

/-- C6. With the employee NIS rate at the schema constant 3%, the monthly
NIS contribution computed by the deduction calculation never exceeds
cap × rate / 12 = 1,000,000 × 0.03 / 12 = 2,500, whatever the stored gross
earnings. -/
theorem calculateJamaicaTaxes_nis_capped (p : Payroll)
    (h : p.deductions.nis.rate = 3 / 100) :
    (calculateJamaicaTaxes p).deductions.nis.contribution ≤ 2500 := by
  simp only [calculateJamaicaTaxes]
  rw [h]
  unfold jsMin
  split
  case isTrue hle =>
    calc p.earnings.grossEarnings * 12 * (3 / 100) / 12
        ≤ 1000000 * (3 / 100) / 12 := by
          have h12 : p.earnings.grossEarnings * 12 ≤ 1000000 := hle
          linarith
      _ = 2500 := by norm_num
  case isFalse => norm_num

/-- C6, witness: the cap is attained (contribution exactly 2,500) on the
200,000/month sample document, whose annual gross 2,400,000 exceeds the
1,000,000 cap. -/
theorem calculateJamaicaTaxes_nis_capped_witness :
    (mkPayrollDoc 200000 []).deductions.nis.rate = 3 / 100 ∧
    (calculateJamaicaTaxes (mkPayrollDoc 200000 [])).deductions.nis.contribution ≤ 2500 :=
  ⟨rfl, calculateJamaicaTaxes_nis_capped (mkPayrollDoc 200000 []) rfl⟩

/-! ## C3 — sequence-number ordinals -/

/-- C3: the sequence-number invariant concerns ordinals the program never
issues. `POST /api/payroll` leaves `earnings.grossEarnings`,
`deductions.totalDeductions` and `netPay` unset — they are assigned only
in the pre-save hook — yet the schema marks all three `required` with no
default, and mongoose validates before user pre-save hooks run (the
schema documents this ordering itself: `payrollNumber` was made
non-required because it is generated in the hook). So every creation is
rejected at validation, the `countDocuments`-based numbering code never
executes, and no payroll number is ever generated; `POST /api/transactions`
fails identically on its hook-assigned required `transactionNumber`
(see `createTransaction_always_rejected`). -/
theorem saveNewPayroll_always_rejected (count year month : Nat)
    (basicSalary : ℚ) (overtime : Overtime) (allowances : List Allowance)
    (bonus commission backPay : ℚ) :
    saveNewPayroll count year month
        (buildNewPayroll basicSalary overtime allowances bonus commission backPay) =
      Except.error PayrollError.validationFailed := rfl

/-! ## C4 — paid records are immutable through the update route -/

/-- C4. Any update request against a payroll record whose status is `paid`
is rejected by the payment guard of `PUT /api/payroll/:payrollId` with the
immutability error, before any field is touched, and the stored record is
unchanged. -/
theorem updatePayroll_paid_immutable (p : Payroll) (r : PayrollUpdateRequest)
    (h : p.status = .paid) :
    updatePayroll p r = Except.error PayrollError.immutable ∧
    applyUpdateToStore p r = p := by
  constructor
  · simp [updatePayroll, h]
  · simp [applyUpdateToStore, updatePayroll, h]

/-- A paid payroll document. -/
def payrollPaidDoc : Payroll := { mkPayrollDoc 20000 [] with status := .paid }

/-- An update request that tries to edit notes and move a paid record back
to `calculated`. -/
def requestEditPaid : PayrollUpdateRequest :=
  { earnings := none, workRecord := none, paymentInfo := none,
    notes := some "revised", status := some .calculated }

/-- C4, witness: the immutability rejection on a concrete paid record. -/
theorem updatePayroll_paid_immutable_witness :
    payrollPaidDoc.status = .paid ∧
    updatePayroll payrollPaidDoc requestEditPaid = Except.error PayrollError.immutable ∧
    applyUpdateToStore payrollPaidDoc requestEditPaid = payrollPaidDoc :=
  ⟨rfl, (updatePayroll_paid_immutable payrollPaidDoc requestEditPaid rfl).1,
    (updatePayroll_paid_immutable payrollPaidDoc requestEditPaid rfl).2⟩

/-! ## C5 — rounding of monetary outputs -/

/-- A monthly payroll with gross earnings 300,000 after its first save:
its annual taxable income 2,100,000 reaches into the 25% bracket, making
the exact monthly PAYE 599999/48 = 12,499.9791..., a value that is not
representable with two decimal places. -/
def payrollSaved300k : Payroll := preSavePayroll true 0 2025 3 (mkPayrollDoc 300000 [])

/-- C5, counterexample. The claim asserts every monetary output of the
deduction calculation is rounded to exactly two decimal places. The stored
monthly PAYE of the 300,000/month document is the exact unrounded quotient
599999/48, which has no two-decimal representation: the model applies no
rounding at all. -/
theorem paye_monthly_not_two_decimals :
    ¬ hasTwoDecimalPlaces payrollSaved300k.deductions.paye.amount := by
  norm_num [hasTwoDecimalPlaces, payrollSaved300k, preSavePayroll, calculateJamaicaTaxes,
    mkPayrollDoc, jsMax, jsMin, payeFromBrackets, jamaicaTaxBrackets2024, capAtBracketMax,
    defaultTaxConfig, zeroOvertime, zeroWorkRecord, defaultPaymentInfo]

/-- C5, amended. The deduction calculation stores exact unrounded amounts
(here the monthly PAYE 599999/48), and the only rounding in the tax
routes is `Math.round` in `POST /api/tax/calculate-paye`, which rounds the
annual and monthly PAYE to whole currency units (zero decimal places,
half-up: 149,999.75 becomes 150,000 and 12,499.979... becomes 12,500) —
not to two decimal places. -/
theorem paye_rounding_behaviour :
    payrollSaved300k.deductions.paye.amount = 599999 / 48 ∧
    calculatePayeRoute 3600000 none 0 =
      Except.ok
        { adjustedAllowance := 1500000, taxableIncome := 2100000,
          payeExact := 599999 / 4, payeAmount := 150000, monthlyPaye := 12500 } := by
  constructor
  · norm_num [payrollSaved300k, preSavePayroll, calculateJamaicaTaxes,
      mkPayrollDoc, jsMax, jsMin, payeFromBrackets, jamaicaTaxBrackets2024,
      capAtBracketMax, defaultTaxConfig, zeroOvertime, zeroWorkRecord, defaultPaymentInfo]
  · norm_num [calculatePayeRoute, jsOrNum, jsMax, jsMin, payeFromBrackets,
      jamaicaTaxBrackets2024, capAtBracketMax, jsRound, ratFloor]
    decide

/-! ## C7 — consumption-tax (GCT) computation -/

/-- The example creation request of the specification: amount 100,000,
taxable, 15% GCT. -/
def gctExampleInput : TransactionInput :=
  { amount := 100000
    taxInfo := some { isTaxable := some true, gctRate := some (15 / 100), gctAmount := none } }

/-- C7: the consumption-tax contract concerns stored transactions the
program can never produce. A request that fails the express-validator
middleware is rejected with a 400; every request that passes it is then
rejected by mongoose validation, because the required `transactionNumber`
is assigned only in the pre-save hook and mongoose validates before user
pre-save hooks run. In particular the specification's 100,000-at-15%
example is never stored (so no tax amount 15,000 and no total payable
115,000 ever materialise), and the `countDocuments`-based transaction
numbering never executes. -/
theorem createTransaction_always_rejected :
    (∀ (count year : Nat) (i : TransactionInput),
      createTransaction count year i = Except.error TransactionError.invalidInput ∨
      createTransaction count year i = Except.error TransactionError.validationFailed) ∧
    createTransaction 0 2025 gctExampleInput =
      Except.error TransactionError.validationFailed := by
  constructor
  · intro count year i
    by_cases h : transactionRulesPass i
    · right
      simp [createTransaction, h, validateTransaction]
    · left
      simp [createTransaction, h]
  · norm_num [createTransaction, transactionRulesPass, rateRuleOk, gctExampleInput,
      validateTransaction, Option.bind]

/-! ## C8 / C10 — status handling of the update route -/

/-- A successful save keeps the document status. -/
theorem savePayroll_ok_status {isNew : Bool} {count year month : Nat}
    {p q : Payroll} (h : savePayroll isNew count year month p = Except.ok q) :
    q.status = p.status := by
  simp only [savePayroll] at h
  split at h
  case isTrue => cases h; exact preSavePayroll_status isNew count year month p
  case isFalse => cases h

/-- The merge phase filters the requested status against the current
one and touches nothing else that determines the status. -/
theorem mergePayrollUpdate_status (p : Payroll) (r : PayrollUpdateRequest) :
    (mergePayrollUpdate p r).status = statusFilter p.status r.status := by
  cases hn : r.notes <;> cases hpi : r.paymentInfo <;>
    cases hw : r.workRecord <;> cases he : r.earnings <;>
    simp [mergePayrollUpdate, hn, hpi, hw, he]

/-- The status a successful update stores is exactly the filtered
requested status. -/
theorem updatePayroll_ok_status {p : Payroll} {r : PayrollUpdateRequest}
    {q : Payroll} (h : updatePayroll p r = Except.ok q) :
    q.status = statusFilter p.status r.status := by
  simp only [updatePayroll] at h
  split at h
  case isTrue => cases h
  case isFalse =>
    rw [savePayroll_ok_status h, mergePayrollUpdate_status]

/-- A requested `cancelled` is dropped by the status filter. -/
theorem statusFilter_cancelled (cur : PayrollStatus) :
    statusFilter cur (some .cancelled) = cur := by
  simp [statusFilter]

/-- A requested `paid` is dropped by the status filter. -/
theorem statusFilter_paid (cur : PayrollStatus) :
    statusFilter cur (some .paid) = cur := by
  simp [statusFilter]

/-- Dropping the status key of an update request does not change the
handler result when the requested status is one the filter ignores. -/
theorem updatePayroll_ignored_status (p : Payroll) (r : PayrollUpdateRequest)
    (h : r.status = some .paid ∨ r.status = some .cancelled) :
    updatePayroll p r = updatePayroll p { r with status := none } := by
  simp only [updatePayroll, mergePayrollUpdate]
  rcases h with h | h <;> rw [h] <;> simp [statusFilter]

/-- C8, counterexample. The claim asserts that a payroll record in status
`draft` transitions to `cancelled` when that status is requested. On a
concrete draft record the update succeeds but the requested `cancelled`
is silently dropped by the status filter (`cancelled` is not in the
update route's allow-list), so the stored status stays `draft`. -/
theorem updatePayroll_cancel_ignored_on_draft :
    (updatePayroll payrollModestSaved
        { earnings := none, workRecord := none, paymentInfo := none, notes := none,
          status := some .cancelled }).isOk = true ∧
    payrollStatusOf (updatePayroll payrollModestSaved
        { earnings := none, workRecord := none, paymentInfo := none, notes := none,
          status := some .cancelled }) = some PayrollStatus.draft ∧
    payrollStatusOf (updatePayroll payrollModestSaved
        { earnings := none, workRecord := none, paymentInfo := none, notes := none,
          status := some .cancelled }) ≠ some PayrollStatus.cancelled := by
  refine ⟨?_, ?_, ?_⟩ <;>
  · norm_num [updatePayroll, mergePayrollUpdate, payrollModestSaved,
      payrollModestDeductions, statusFilter, savePayroll, validatePayroll,
      preSavePayroll, calculateJamaicaTaxes, mkPayrollDoc,
      jsMax, jsMin, payeFromBrackets, jamaicaTaxBrackets2024, capAtBracketMax,
      defaultTaxConfig, zeroOvertime, zeroWorkRecord, defaultPaymentInfo, payrollStatusOf]
    decide

/-- C8, amended. A cancellation request through the update route is never
honoured: for a non-paid record a requested `cancelled` is silently
ignored (the handler behaves exactly as if no status had been sent, and a
successful update keeps the current status), while for a `paid` record
every update — including a cancellation attempt — is rejected by the
payment guard. No route ever stores the `cancelled` status. -/
theorem updatePayroll_cancelled_never_stored (p : Payroll) (r : PayrollUpdateRequest) :
    (p.status = .paid → updatePayroll p r = Except.error PayrollError.immutable) ∧
    (p.status ≠ .paid → r.status = some .cancelled →
      updatePayroll p r = updatePayroll p { r with status := none } ∧
      ∀ q, updatePayroll p r = Except.ok q → q.status = p.status) := by
  constructor
  · intro h
    simp [updatePayroll, h]
  · intro _ hcancel
    refine ⟨updatePayroll_ignored_status p r (Or.inr hcancel), ?_⟩
    intro q hq
    rw [updatePayroll_ok_status hq, hcancel, statusFilter_cancelled]

/-- C8, witness: the amended theorem applied to a concrete draft record
with a cancellation request, and to a concrete paid record. -/
theorem updatePayroll_cancelled_never_stored_witness :
    updatePayroll payrollModestSaved
        { earnings := none, workRecord := none, paymentInfo := none,
          notes := none, status := some .cancelled } =
      updatePayroll payrollModestSaved
        { earnings := none, workRecord := none, paymentInfo := none,
          notes := none, status := none } ∧
    updatePayroll payrollPaidDoc
        { earnings := none, workRecord := none, paymentInfo := none,
          notes := none, status := some .cancelled } =
      Except.error PayrollError.immutable := by
  constructor
  · exact ((updatePayroll_cancelled_never_stored payrollModestSaved
      { earnings := none, workRecord := none, paymentInfo := none,
        notes := none, status := some .cancelled }).2 (by decide) rfl).1
  · exact (updatePayroll_cancelled_never_stored payrollPaidDoc
      { earnings := none, workRecord := none, paymentInfo := none,
        notes := none, status := some .cancelled }).1 rfl

/-- An update request that shrinks the basic salary to 1,000 and asks for
status `approved` in the same call. -/
def requestShrinkToApproved : PayrollUpdateRequest :=
  { earnings := some
      { basicSalary := some 1000, overtime := none, allowances := none,
        bonus := none, commission := none, backPay := none, grossEarnings := none }
    workRecord := none
    paymentInfo := none
    notes := none
    status := some PayrollStatus.approved }

/-- An update request that sets a negative basic salary while asking for
status `approved`. -/
def requestNegativeSalaryApproved : PayrollUpdateRequest :=
  { earnings := some
      { basicSalary := some (-5), overtime := none, allowances := none,
        bonus := none, commission := none, backPay := none, grossEarnings := none }
    workRecord := none
    paymentInfo := none
    notes := none
    status := some PayrollStatus.approved }

/-- C10, counterexample. The claim asserts every update carrying a target
status among draft/calculated/approved on a non-paid record is accepted.
An update whose merged fields violate a schema bound is not: here the
merged basic salary -5 fails the min-0 validation, which runs on the
merged document before the pre-save hook, so the whole update errors and
the requested status is never stored. -/
theorem updatePayroll_negative_salary_rejected :
    payrollModestSaved.status ≠ PayrollStatus.paid ∧
    requestNegativeSalaryApproved.status = some PayrollStatus.approved ∧
    updatePayroll payrollModestSaved requestNegativeSalaryApproved =
      Except.error PayrollError.validationFailed := by
  refine ⟨by decide, rfl, ?_⟩
  norm_num [updatePayroll, mergePayrollUpdate, payrollModestSaved,
    payrollModestDeductions, requestNegativeSalaryApproved, statusFilter,
    mergeEarnings, savePayroll, validatePayroll, preSavePayroll,
    calculateJamaicaTaxes, mkPayrollDoc, jsMax, jsMin, payeFromBrackets,
    jamaicaTaxBrackets2024, capAtBracketMax, defaultTaxConfig, zeroOvertime,
    zeroWorkRecord, defaultPaymentInfo]
  decide

/-- C10, amended. For a non-paid record the update route performs no
transition validation: whenever the merged document passes the schema's
declared bounds — the only acceptance condition, checked before the hook,
so the recomputed derived values are themselves never validated — the
update is accepted, and a requested status among draft, calculated and
approved is stored exactly as requested, regardless of the current status
and with no approver entry; a requested `paid` or `cancelled` is silently
dropped and the handler behaves exactly as if no status had been sent. An
update whose merged fields violate a bound, such as a negative basic
salary, is rejected (see the counterexample). -/
theorem updatePayroll_status_set_semantics (p : Payroll) (r : PayrollUpdateRequest)
    (hne : p.status ≠ PayrollStatus.paid) :
    (validatePayroll (mergePayrollUpdate p r) →
      updatePayroll p r =
        Except.ok (preSavePayroll false 0 0 0 (mergePayrollUpdate p r))) ∧
    (∀ s, r.status = some s →
      s = PayrollStatus.draft ∨ s = PayrollStatus.calculated ∨ s = PayrollStatus.approved →
      ∀ q, updatePayroll p r = Except.ok q → q.status = s) ∧
    ((r.status = some PayrollStatus.paid ∨ r.status = some PayrollStatus.cancelled) →
      updatePayroll p r = updatePayroll p { r with status := none }) := by
  refine ⟨?_, ?_, updatePayroll_ignored_status p r⟩
  · intro hval
    simp only [updatePayroll, savePayroll]
    rw [if_neg hne, if_pos hval]
  · intro s hs hmem q hq
    rw [updatePayroll_ok_status hq, hs]
    rcases hmem with h | h | h <;> subst h <;> simp [statusFilter]

/-- C10, witness: the amended theorem applied to a draft record and the
shrink-to-approved update. The merged document passes validation, so the
update is accepted; the status jumps straight from `draft` to `approved`
with no approver entry — and the recomputed net pay -4,110 is stored
without ever being validated. -/
theorem updatePayroll_status_set_semantics_witness :
    updatePayroll payrollModestSaved requestShrinkToApproved =
      Except.ok (preSavePayroll false 0 0 0
        (mergePayrollUpdate payrollModestSaved requestShrinkToApproved)) ∧
    (preSavePayroll false 0 0 0
        (mergePayrollUpdate payrollModestSaved requestShrinkToApproved)).status =
      PayrollStatus.approved ∧
    (preSavePayroll false 0 0 0
        (mergePayrollUpdate payrollModestSaved requestShrinkToApproved)).netPay =
      -4110 := by
  have hne : payrollModestSaved.status ≠ PayrollStatus.paid := by decide
  have hval : validatePayroll
      (mergePayrollUpdate payrollModestSaved requestShrinkToApproved) := by
    norm_num [mergePayrollUpdate, payrollModestSaved, payrollModestDeductions,
      requestShrinkToApproved, statusFilter, mergeEarnings, validatePayroll,
      preSavePayroll, calculateJamaicaTaxes, mkPayrollDoc, jsMax, jsMin,
      payeFromBrackets, jamaicaTaxBrackets2024, capAtBracketMax, defaultTaxConfig,
      zeroOvertime, zeroWorkRecord, defaultPaymentInfo]
  have T := updatePayroll_status_set_semantics payrollModestSaved
    requestShrinkToApproved hne
  have hok := T.1 hval
  refine ⟨hok, T.2.1 PayrollStatus.approved rfl (Or.inr (Or.inr rfl)) _ hok, ?_⟩
  norm_num [mergePayrollUpdate, payrollModestSaved, payrollModestDeductions,
    requestShrinkToApproved, statusFilter, mergeEarnings, preSavePayroll,
    calculateJamaicaTaxes, mkPayrollDoc, jsMax, jsMin, payeFromBrackets,
    jamaicaTaxBrackets2024, capAtBracketMax, defaultTaxConfig, zeroOvertime,
    zeroWorkRecord, defaultPaymentInfo]

/-! ## C9 — the monthly statutory return -/

/-- Field-wise characterisation of the monthly-totals reduce as sums. -/
theorem foldl_addRow_totals (rows : List MonthlyPayrollRow) :
    ∀ acc : MonthlyTotals,
      (rows.foldl addRow acc).totalPAYE =
          acc.totalPAYE + (rows.map MonthlyPayrollRow.paye).sum ∧
        (rows.foldl addRow acc).totalNIS =
          acc.totalNIS + (rows.map MonthlyPayrollRow.nis).sum ∧
        (rows.foldl addRow acc).totalEducationTax =
          acc.totalEducationTax + (rows.map MonthlyPayrollRow.educationTax).sum ∧
        (rows.foldl addRow acc).totalHeartTrust =
          acc.totalHeartTrust + (rows.map MonthlyPayrollRow.heartTrust).sum := by
  induction rows with
  | nil => intro acc; simp
  | cons r rs ih =>
      intro acc
      obtain ⟨h1, h2, h3, h4⟩ := ih (addRow acc r)
      simp only [List.foldl_cons, List.map_cons, List.sum_cons]
      rw [h1, h2, h3, h4]
      simp only [addRow]
      refine ⟨by ring, by ring, by ring, by ring⟩

/-- When every record reports nonnegative levy amounts (the schema's
`min: 0` bounds), the monthly totals are nonnegative. -/
theorem monthlyTotals_nonneg (rows : List MonthlyPayrollRow)
    (h : ∀ row ∈ rows, 0 ≤ row.paye ∧ 0 ≤ row.nis ∧
      0 ≤ row.educationTax ∧ 0 ≤ row.heartTrust) :
    0 ≤ (monthlyTotals rows).totalPAYE ∧ 0 ≤ (monthlyTotals rows).totalNIS ∧
    0 ≤ (monthlyTotals rows).totalEducationTax ∧
    0 ≤ (monthlyTotals rows).totalHeartTrust := by
  obtain ⟨h1, h2, h3, h4⟩ := foldl_addRow_totals rows zeroTotals
  unfold monthlyTotals
  rw [h1, h2, h3, h4]
  simp only [zeroTotals, zero_add]
  refine ⟨?_, ?_, ?_, ?_⟩ <;>
  · apply List.sum_nonneg
    intro x hx
    rw [List.mem_map] at hx
    obtain ⟨row, hrow, rfl⟩ := hx
    first
    | exact (h row hrow).1
    | exact (h row hrow).2.1
    | exact (h row hrow).2.2.1
    | exact (h row hrow).2.2.2

/-- For a nonnegative total, the handler's tag is `required` exactly when
the total is nonzero. -/
theorem required_iff_ne_zero {x : ℚ} (hx : 0 ≤ x) :
    ((if 0 < x then ReturnStatus.required else ReturnStatus.nilReturn) =
        ReturnStatus.required ↔ x ≠ 0) := by
  split_ifs with h
  · simp [ne_of_gt h]
  · have hz : x = 0 := le_antisymm (not_lt.mp h) hx
    simp [hz]

/-- Passing the 1-based reported month as a JavaScript 0-based month index
lands on the month after the reported one, with year carry at December. -/
theorem jsMkDate_following (y : ℤ) (m : Nat) (d : Nat) (h2 : m ≤ 12) :
    jsDateYmd (jsMkDate y m d) = ((monthFollowing y m).1, (monthFollowing y m).2, d) := by
  by_cases hm : m = 12
  · subst hm; simp [jsMkDate, jsDateYmd, monthFollowing]
  · have hlt : m < 12 := lt_of_le_of_ne h2 hm
    simp [jsMkDate, jsDateYmd, monthFollowing, hm, Nat.mod_eq_of_lt hlt]
    omega

/-- C9. In the monthly statutory return, each per-levy total is tagged
`required` exactly when it is nonzero (totals are nonnegative because
every stored amount respects the schema's `min: 0` bound), and the due
dates are fixed offsets from the reported period: PAYE, education tax and
HEART on the 14th of the following month, NIS on the 15th. -/
theorem monthlyReturns_required_tags_and_due_dates (taxYear : ℤ) (taxMonth : Nat)
    (rows : List MonthlyPayrollRow) (hm : taxMonth ≤ 12)
    (hrows : ∀ row ∈ rows, 0 ≤ row.paye ∧ 0 ≤ row.nis ∧
      0 ≤ row.educationTax ∧ 0 ≤ row.heartTrust) :
    ((monthlyReturns taxYear taxMonth rows).paye.status = ReturnStatus.required ↔
        (monthlyReturns taxYear taxMonth rows).paye.totalPAYE ≠ 0) ∧
    ((monthlyReturns taxYear taxMonth rows).nis.status = ReturnStatus.required ↔
        (monthlyReturns taxYear taxMonth rows).nis.employeeContributions ≠ 0) ∧
    ((monthlyReturns taxYear taxMonth rows).educationTax.status = ReturnStatus.required ↔
        (monthlyReturns taxYear taxMonth rows).educationTax.totalTax ≠ 0) ∧
    ((monthlyReturns taxYear taxMonth rows).heartTrust.status = ReturnStatus.required ↔
        (monthlyReturns taxYear taxMonth rows).heartTrust.employeeContributions ≠ 0) ∧
    jsDateYmd (monthlyReturns taxYear taxMonth rows).paye.dueDate =
      ((monthFollowing taxYear taxMonth).1, (monthFollowing taxYear taxMonth).2, 14) ∧
    jsDateYmd (monthlyReturns taxYear taxMonth rows).nis.dueDate =
      ((monthFollowing taxYear taxMonth).1, (monthFollowing taxYear taxMonth).2, 15) ∧
    jsDateYmd (monthlyReturns taxYear taxMonth rows).educationTax.dueDate =
      ((monthFollowing taxYear taxMonth).1, (monthFollowing taxYear taxMonth).2, 14) ∧
    jsDateYmd (monthlyReturns taxYear taxMonth rows).heartTrust.dueDate =
      ((monthFollowing taxYear taxMonth).1, (monthFollowing taxYear taxMonth).2, 14) := by
  obtain ⟨n1, n2, n3, n4⟩ := monthlyTotals_nonneg rows hrows
  simp only [monthlyReturns]
  exact ⟨required_iff_ne_zero n1, required_iff_ne_zero n2, required_iff_ne_zero n3,
    required_iff_ne_zero n4, jsMkDate_following taxYear taxMonth 14 hm,
    jsMkDate_following taxYear taxMonth 15 hm, jsMkDate_following taxYear taxMonth 14 hm,
    jsMkDate_following taxYear taxMonth 14 hm⟩

/-- The single approved December payroll record of the witness tenant. -/
def decemberRow : MonthlyPayrollRow :=
  { grossEarnings := 100000, paye := 100, nis := 50, educationTax := 10,
    heartTrust := 20, employeePension := 0, employerPension := 0 }

/-- C9, witness: the December 2024 return of a tenant with one payroll
record; every levy is `required` and the due dates fall on 14/15 January
2025. -/
theorem monthlyReturns_witness :
    ((monthlyReturns 2024 12 [decemberRow]).paye.status = ReturnStatus.required ↔
        (monthlyReturns 2024 12 [decemberRow]).paye.totalPAYE ≠ 0) ∧
    ((monthlyReturns 2024 12 [decemberRow]).nis.status = ReturnStatus.required ↔
        (monthlyReturns 2024 12 [decemberRow]).nis.employeeContributions ≠ 0) ∧
    ((monthlyReturns 2024 12 [decemberRow]).educationTax.status = ReturnStatus.required ↔
        (monthlyReturns 2024 12 [decemberRow]).educationTax.totalTax ≠ 0) ∧
    ((monthlyReturns 2024 12 [decemberRow]).heartTrust.status = ReturnStatus.required ↔
        (monthlyReturns 2024 12 [decemberRow]).heartTrust.employeeContributions ≠ 0) ∧
    jsDateYmd (monthlyReturns 2024 12 [decemberRow]).paye.dueDate =
      ((monthFollowing 2024 12).1, (monthFollowing 2024 12).2, 14) ∧
    jsDateYmd (monthlyReturns 2024 12 [decemberRow]).nis.dueDate =
      ((monthFollowing 2024 12).1, (monthFollowing 2024 12).2, 15) ∧
    jsDateYmd (monthlyReturns 2024 12 [decemberRow]).educationTax.dueDate =
      ((monthFollowing 2024 12).1, (monthFollowing 2024 12).2, 14) ∧
    jsDateYmd (monthlyReturns 2024 12 [decemberRow]).heartTrust.dueDate =
      ((monthFollowing 2024 12).1, (monthFollowing 2024 12).2, 14) := by
  apply monthlyReturns_required_tags_and_due_dates 2024 12 [decemberRow] (by norm_num)
  intro row hrow
  rw [List.mem_singleton] at hrow
  subst hrow
  norm_num [decemberRow]

end AccountEasy
